import Mathlib

/-!
Verification development for the sunset-lights automation worker.

The worker source (its single module) is shallowly embedded below:

* JavaScript runtime values that appear as capability state values are
  modelled by the inductive `JVal` (numbers as integers, strings, booleans,
  `null` and `undefined`).
* Ambient wall-clock time is passed explicitly (UTC hour for the scheduler,
  epoch milliseconds for the sunset computation); JS number arithmetic on
  time deltas is modelled over `Rat`.
* Each outbound HTTP interaction is an explicit parameter: the directory
  listing response, the per-device state response and the per-device control
  outcome are inputs, and the requests the code issues are collected in the
  returned traces.  A JS exception is `Except.error`.
-/

/-- JavaScript value as it can appear in a capability's `state.value` slot. -/
inductive JVal where
  | num (n : Int)
  | str (s : String)
  | bool (b : Bool)
  | null
  | undefined
  deriving DecidableEq

/-- JavaScript truthiness of a `JVal` (used for the source's `value || null`). -/
def jsTruthy : JVal → Bool
  | JVal.num n => n ≠ 0
  | JVal.str s => s ≠ ""
  | JVal.bool b => b
  | JVal.null => false
  | JVal.undefined => false

/-- The `state` object of a capability payload: `{ value: ... }`. -/
structure CapState where
  value : JVal
  deriving DecidableEq

/-- One capability payload object from the vendor's state response:
`{ type, instance, state: { value } }`; a missing `state` is `none`. -/
structure Capability where
  type : String
  inst : String
  state : Option CapState
  deriving DecidableEq

/-- Optional chaining `c?.state?.value`: `undefined` when the capability or
its `state` is absent, the stored value otherwise. -/
def optChainValue : Option Capability → JVal
  | none => JVal.undefined
  | some c =>
    match c.state with
    | none => JVal.undefined
    | some st => st.value

/-- JS `ToUint32`-style view of an integer: the representative of `n` modulo
`2^32` in `[0, 2^32)`. -/
def toUint32 (n : Int) : Nat := (n % (2 ^ 32 : Int)).toNat

/-- Reinterpret a `[0, 2^32)` value as a signed 32-bit integer. -/
def ofUint32 (m : Nat) : Int := if m < 2 ^ 31 then (m : Int) else (m : Int) - 2 ^ 32

/-- JS `ToInt32`: wrap an integer into `[-2^31, 2^31)`. -/
def asInt32 (n : Int) : Int := ofUint32 (toUint32 n)

/-- JS `ToInt32` on a runtime value, as applied by the bitwise operators:
numbers wrap to 32 bits, `null`/`undefined`/`false` give `0`, `true` gives
`1`, strings go through numeric parsing (unparsable strings give `0`). -/
def jsToInt32 : JVal → Int
  | JVal.num n => asInt32 n
  | JVal.str s => asInt32 ((s.toInt?).getD 0)
  | JVal.bool b => if b then 1 else 0
  | JVal.null => 0
  | JVal.undefined => 0

/-- JS sign-propagating right shift `a >> k` on 32-bit wrapped operands. -/
def jsShr (a : Int) (k : Nat) : Int := asInt32 a / (2 ^ k : Int)

/-- JS bitwise and `a & b` on 32-bit wrapped operands. -/
def jsAnd (a b : Int) : Int := ofUint32 (Nat.land (toUint32 a) (toUint32 b))

/-- JS bitwise or on 32-bit wrapped operands. -/
def jsOr (a b : Int) : Int := ofUint32 (Nat.lor (toUint32 a) (toUint32 b))

/-- JS left shift `a << k` on 32-bit wrapped operands. -/
def jsShl (a : Int) (k : Nat) : Int := ofUint32 ((toUint32 a <<< k) % 2 ^ 32)

/-- Decoded RGB triple `{ r, g, b }` built by the status decoder. -/
structure RGB where
  r : Int
  g : Int
  b : Int
  deriving DecidableEq

/-- One device record from the directory response: `{ device, sku, deviceName }`. -/
structure Device where
  device : String
  sku : String
  deviceName : String
  deriving DecidableEq

/-- Parsed body of the directory response; `data` is `none` when the payload
lacks a device array. -/
structure DirectoryPayload where
  data : Option (List Device)
  deriving DecidableEq

/-- The roster extraction `devicesData.data || []` shared by the status
aggregator and the control fan-out. -/
def listDevices (payload : DirectoryPayload) : List Device :=
  payload.data.getD []

/-- The normalized per-device record returned on the success path of the
status aggregator: name, sku, power string, brightness (`?? null`), decoded
color, scene (`|| null`). -/
structure DeviceStatusOk where
  name : String
  sku : String
  power : String
  brightness : JVal
  color : Option RGB
  scene : JVal
  deriving DecidableEq

/-- Decoder for one device's capability list (the body of the aggregator's
per-device success path): find the `on_off`, `range`/`brightness`,
`colorRgb` and `lightScene` capabilities and normalize their values. -/
def decodeDeviceStatus (device : Device) (capabilities : List Capability) :
    DeviceStatusOk :=
  let powerState := capabilities.find? (fun c => c.type == "devices.capabilities.on_off")
  let brightnessState := capabilities.find?
    (fun c => c.type == "devices.capabilities.range" && c.inst == "brightness")
  let colorState := capabilities.find? (fun c => c.inst == "colorRgb")
  let sceneState := capabilities.find? (fun c => c.inst == "lightScene")
  let colorInt := optChainValue colorState
  let rgb : Option RGB :=
    if colorInt = JVal.null ∨ colorInt = JVal.undefined then none
    else some { r := jsAnd (jsShr (jsToInt32 colorInt) 16) 255
              , g := jsAnd (jsShr (jsToInt32 colorInt) 8) 255
              , b := jsAnd (jsToInt32 colorInt) 255 }
  let brightVal := optChainValue brightnessState
  let sceneVal := optChainValue sceneState
  { name := device.deviceName
  , sku := device.sku
  , power := if optChainValue powerState = JVal.num 1 then "ON" else "OFF"
  , brightness := if brightVal = JVal.null ∨ brightVal = JVal.undefined
                  then JVal.null else brightVal
  , color := rgb
  , scene := if jsTruthy sceneVal then sceneVal else JVal.null }

/-- One entry of the aggregator's device list: either a decoded status or,
when that device's state query threw, a record carrying only the name, sku
and the error message (no decoded status fields). -/
inductive DeviceEntry where
  | ok (status : DeviceStatusOk)
  | err (name : String) (sku : String) (error : String)
  deriving DecidableEq

/-- The aggregator's overall result: `{ devices, timestamp }` on success or
the top-level `{ error, timestamp }` record when listing devices threw. -/
inductive AggregateResult where
  | ok (devices : List DeviceEntry) (timestamp : String)
  | err (error : String) (timestamp : String)
  deriving DecidableEq

/-- The status aggregator.  `dir` is the outcome of fetching and parsing the
directory listing (`Except.error` models a thrown exception, caught by the
outer try), `fetchState` the outcome of one device's state query including
the `payload?.capabilities || []` extraction (its `Except.error` models the
per-device try/catch), `timestamp` the serialized current time. -/
def getDeviceStatus (dir : Except String DirectoryPayload)
    (fetchState : Device → Except String (List Capability))
    (timestamp : String) : AggregateResult :=
  match dir with
  | Except.error e => AggregateResult.err e timestamp
  | Except.ok payload =>
    let devices := listDevices payload
    AggregateResult.ok
      (devices.map (fun device =>
        match fetchState device with
        | Except.ok capabilities =>
          DeviceEntry.ok (decodeDeviceStatus device capabilities)
        | Except.error e => DeviceEntry.err device.deviceName device.sku e))
      timestamp

/-- One control request body issued to the vendor: the device coordinates and
the `on_off`/`powerSwitch` capability with its 0/1 value. -/
structure ControlRequest where
  device : String
  sku : String
  capType : String
  capInstance : String
  value : Int
  deriving DecidableEq

/-- The control request the fan-out builds for one device. -/
def controlRequest (value : Int) (d : Device) : ControlRequest :=
  { device := d.device, sku := d.sku
  , capType := "devices.capabilities.on_off"
  , capInstance := "powerSwitch"
  , value := value }

/-- What the fan-out loop logs for one device: the success log line or the
caught-error log line. -/
inductive DispatchOutcome where
  | success (deviceName : String)
  | failure (deviceName : String)
  deriving DecidableEq

/-- The `for (const device of devices)` loop of the control fan-out: each
iteration issues one control request and catches that device's failure
before moving to the next device. -/
def controlLoop (ctrl : Device → Except String Unit) (turnOn : Bool) :
    List Device → List ControlRequest × List DispatchOutcome
  | [] => ([], [])
  | d :: rest =>
    let req := controlRequest (if turnOn then 1 else 0) d
    let outcome :=
      match ctrl d with
      | Except.ok _ => DispatchOutcome.success d.deviceName
      | Except.error _ => DispatchOutcome.failure d.deviceName
    let tail := controlLoop ctrl turnOn rest
    (req :: tail.1, outcome :: tail.2)

/-- Observable result of one control fan-out run: how many directory queries
it made, the control requests it attempted in order, the per-device log
lines, and the value the function returns to its caller.  The source
function body ends without a `return` statement, so the caller receives
`undefined`: `returnValue` is therefore always `none`. -/
structure ControlResult where
  dirQueries : Nat
  attempts : List ControlRequest
  logs : List DispatchOutcome
  returnValue : Option (List DispatchOutcome)
  deriving DecidableEq

/-- The control fan-out.  `dir` is the directory fetch outcome (not inside
any try, so a thrown error propagates), `ctrl` the outcome of one device's
control request, `turnOn` the boolean selecting the 1/0 value. -/
def controlAllLights (dir : Except String DirectoryPayload)
    (ctrl : Device → Except String Unit) (turnOn : Bool) :
    Except String ControlResult :=
  match dir with
  | Except.error e => Except.error e
  | Except.ok payload =>
    let devices := listDevices payload
    let runs := controlLoop ctrl turnOn devices
    Except.ok { dirQueries := 1, attempts := runs.1, logs := runs.2, returnValue := none }

/-- Parsed body of the solar-time response: the status flag and the sunset
instant (epoch milliseconds, as a JS number). -/
structure SunsetData where
  status : String
  sunset : Rat
  deriving DecidableEq

/-- The structured value the sunset check returns: the `{ error: ... }`
record on a non-success solar response, or the `{ triggered: true, ... }` /
`{ triggered: false, ... }` records. -/
inductive CheckResult where
  | fetchError (error : String)
  | triggered (sunsetMs : Rat) (diff : Rat)
  | notTriggered (sunsetMs : Rat) (diff : Rat)
  deriving DecidableEq

/-- Observable result of one sunset check: the returned record plus the
counts of solar and directory queries and the control requests issued. -/
structure CheckOutput where
  result : CheckResult
  solarQueries : Nat
  dirQueries : Nat
  controls : List ControlRequest
  deriving DecidableEq

/-- The time delta `(now - sunsetTime) / 1000 / 60` in minutes. -/
def diffMinutes (nowMs sunsetMs : Rat) : Rat := (nowMs - sunsetMs) / 1000 / 60

/-- The sunset check.  `sunsetRes` is the solar query outcome (a thrown
fetch/parse error propagates, there is no try around it), `nowMs` the
current epoch milliseconds, `dir` and `ctrl` feed the fan-out invoked when
the trigger window is hit. -/
def checkSunsetAndTurnOn (sunsetRes : Except String SunsetData) (nowMs : Rat)
    (dir : Except String DirectoryPayload) (ctrl : Device → Except String Unit) :
    Except String CheckOutput :=
  match sunsetRes with
  | Except.error e => Except.error e
  | Except.ok sunsetData =>
    if sunsetData.status ≠ "OK" then
      Except.ok { result := CheckResult.fetchError "Failed to fetch sunset"
                , solarQueries := 1, dirQueries := 0, controls := [] }
    else
      let diff := diffMinutes nowMs sunsetData.sunset
      if -5 ≤ diff ∧ diff ≤ 20 then
        match controlAllLights dir ctrl true with
        | Except.error e => Except.error e
        | Except.ok res =>
          Except.ok { result := CheckResult.triggered sunsetData.sunset diff
                    , solarQueries := 1, dirQueries := res.dirQueries
                    , controls := res.attempts }
      else
        Except.ok { result := CheckResult.notTriggered sunsetData.sunset diff
                  , solarQueries := 1, dirQueries := 0, controls := [] }

/-- Observable result of one recurring tick: solar queries made, directory
queries made, control requests issued. -/
structure SchedOutput where
  solarQueries : Nat
  dirQueries : Nat
  controls : List ControlRequest
  deriving DecidableEq

/-- The recurring-tick handler: at UTC hour 8 turn everything off; at hours
`>= 22` or `<= 2` run the sunset check; otherwise do nothing.  `hour` is
`new Date().getUTCHours()`, passed explicitly. -/
def scheduled (hour : Nat) (sunsetRes : Except String SunsetData) (nowMs : Rat)
    (dir : Except String DirectoryPayload) (ctrl : Device → Except String Unit) :
    Except String SchedOutput :=
  if hour = 8 then
    match controlAllLights dir ctrl false with
    | Except.error e => Except.error e
    | Except.ok res =>
      Except.ok { solarQueries := 0, dirQueries := res.dirQueries, controls := res.attempts }
  else if 22 ≤ hour ∨ hour ≤ 2 then
    match checkSunsetAndTurnOn sunsetRes nowMs dir ctrl with
    | Except.error e => Except.error e
    | Except.ok out =>
      Except.ok { solarQueries := out.solarQueries, dirQueries := out.dirQueries
                , controls := out.controls }
  else
    Except.ok { solarQueries := 0, dirQueries := 0, controls := [] }

/-- A network event as seen from the worker: an outbound request leaves
(`send`) or its response settles and the awaiting task resumes (`recv`). -/
inductive Event where
  | send (id : String)
  | recv (id : String)
  deriving DecidableEq

/-- Request/response event order of the control fan-out's
`for (const device of devices) { ... await fetch(...) ... }` loop: iteration
`k+1` starts only after iteration `k`'s awaited response has settled, so the
events strictly alternate per device. -/
def controlAllLightsEvents : List Device → List Event
  | [] => []
  | d :: rest => Event.send d.device :: Event.recv d.device :: controlAllLightsEvents rest

/-- Request/response event order of the aggregator's
`Promise.all(devices.map(async (device) => { ... await fetch(...) ... }))`:
`map` runs every async closure synchronously up to its first `await`, so
every request has been sent before any response is awaited. -/
def getDeviceStatusEvents (devices : List Device) : List Event :=
  devices.map (fun d => Event.send d.device) ++ devices.map (fun d => Event.recv d.device)

/-- Whether an event is a response completion rather than a request. -/
def isRecvEvent : Event → Bool
  | Event.send _ => false
  | Event.recv _ => true

/-- Written from the spec's words for its concurrency contract: a trace has
all requests in flight concurrently when every `send` precedes every
`recv`, i.e. once some response has been awaited no further request is
issued. -/
def allSendsBeforeAnyRecv : List Event → Bool
  | [] => true
  | Event.send _ :: rest => allSendsBeforeAnyRecv rest
  | Event.recv _ :: rest => rest.all isRecvEvent

/-- Written from the spec's round-trip expression `r<<16 | g<<8 | b`; the
worker source has no packing code, so this definition exists only to state
the spec's round-trip property over the decoded channels. -/
def packRGB (c : RGB) : Int := jsOr (jsOr (jsShl c.r 16) (jsShl c.g 8)) c.b

/-- Written from the spec's words for the fan-out contract: the call's
return value is a sequence of per-device outcomes of the given roster
length. -/
def returnsOutcomeList (r : Except String ControlResult) (n : Nat) : Prop :=
  ∃ res outs, r = Except.ok res ∧ res.returnValue = some outs ∧ outs.length = n

/-- Concrete device fixture. -/
def devA : Device := { device := "idA", sku := "H6159", deviceName := "Lamp A" }

/-- Concrete device fixture. -/
def devB : Device := { device := "idB", sku := "H6159", deviceName := "Lamp B" }

/-- Concrete two-device directory payload. -/
def rosterAB : DirectoryPayload := { data := some [devA, devB] }

/-- Control behaviour where device A's request throws and every other
device's request succeeds. -/
def ctrlFailA : Device → Except String Unit := fun d =>
  if d.device == "idA" then Except.error "network down" else Except.ok ()

/-- Control behaviour where every request succeeds. -/
def ctrlOk : Device → Except String Unit := fun _ => Except.ok ()

/-- Capability payload fixture: power on and brightness 80. -/
def capsB : List Capability :=
  [ { type := "devices.capabilities.on_off", inst := "powerSwitch"
    , state := some { value := JVal.num 1 } }
  , { type := "devices.capabilities.range", inst := "brightness"
    , state := some { value := JVal.num 80 } } ]

/-- State-query behaviour where device A's query throws and every other
device reports `capsB`. -/
def fetchFailA : Device → Except String (List Capability) := fun d =>
  if d.device == "idA" then Except.error "timeout" else Except.ok capsB

lemma checkSunset_ok_triggered (nowMs sunsetMs : Rat) (p : DirectoryPayload)
    (ctrl : Device → Except String Unit)
    (h : -5 ≤ diffMinutes nowMs sunsetMs ∧ diffMinutes nowMs sunsetMs ≤ 20) :
    checkSunsetAndTurnOn (Except.ok ⟨"OK", sunsetMs⟩) nowMs (Except.ok p) ctrl =
      Except.ok { result := CheckResult.triggered sunsetMs (diffMinutes nowMs sunsetMs)
                , solarQueries := 1, dirQueries := 1
                , controls := (controlLoop ctrl true (listDevices p)).1 } := by
  simp [checkSunsetAndTurnOn, controlAllLights, h]

lemma checkSunset_ok_notTriggered (nowMs sunsetMs : Rat) (dir : Except String DirectoryPayload)
    (ctrl : Device → Except String Unit)
    (h : ¬(-5 ≤ diffMinutes nowMs sunsetMs ∧ diffMinutes nowMs sunsetMs ≤ 20)) :
    checkSunsetAndTurnOn (Except.ok ⟨"OK", sunsetMs⟩) nowMs dir ctrl =
      Except.ok { result := CheckResult.notTriggered sunsetMs (diffMinutes nowMs sunsetMs)
                , solarQueries := 1, dirQueries := 0, controls := [] } := by
  simp [checkSunsetAndTurnOn, h]

/-- Claim C1: for every evaluation over a success solar response, the sunset
check reports `triggered` exactly when `diffMinutes = (now - sunset)/60000`
lies in the closed interval `[-5, 20]`; concretely, diff `-5` and `20` both
trigger while diff `-5.01` and `20.01` do not. -/
theorem sunset_trigger_window :
    (∀ (nowMs sunsetMs : Rat) (p : DirectoryPayload) (ctrl : Device → Except String Unit),
      (∃ out, checkSunsetAndTurnOn (Except.ok ⟨"OK", sunsetMs⟩) nowMs (Except.ok p) ctrl
            = Except.ok out
          ∧ out.result = CheckResult.triggered sunsetMs (diffMinutes nowMs sunsetMs))
        ↔ (-5 ≤ diffMinutes nowMs sunsetMs ∧ diffMinutes nowMs sunsetMs ≤ 20))
    ∧ checkSunsetAndTurnOn (Except.ok ⟨"OK", 0⟩) (-300000) (Except.ok { data := some [] }) ctrlOk
        = Except.ok { result := CheckResult.triggered 0 (-5)
                    , solarQueries := 1, dirQueries := 1, controls := [] }
    ∧ checkSunsetAndTurnOn (Except.ok ⟨"OK", 0⟩) 1200000 (Except.ok { data := some [] }) ctrlOk
        = Except.ok { result := CheckResult.triggered 0 20
                    , solarQueries := 1, dirQueries := 1, controls := [] }
    ∧ checkSunsetAndTurnOn (Except.ok ⟨"OK", 0⟩) (-300600) (Except.ok { data := some [] }) ctrlOk
        = Except.ok { result := CheckResult.notTriggered 0 (-501/100)
                    , solarQueries := 1, dirQueries := 0, controls := [] }
    ∧ checkSunsetAndTurnOn (Except.ok ⟨"OK", 0⟩) 1200600 (Except.ok { data := some [] }) ctrlOk
        = Except.ok { result := CheckResult.notTriggered 0 (2001/100)
                    , solarQueries := 1, dirQueries := 0, controls := [] } := by
  refine ⟨?_, ?_, ?_, ?_, ?_⟩
  · intro nowMs sunsetMs p ctrl
    constructor
    · rintro ⟨out, hout, hres⟩
      by_cases h : -5 ≤ diffMinutes nowMs sunsetMs ∧ diffMinutes nowMs sunsetMs ≤ 20
      · exact h
      · rw [checkSunset_ok_notTriggered nowMs sunsetMs _ ctrl h] at hout
        cases hout
        simp at hres
    · intro h
      exact ⟨_, checkSunset_ok_triggered nowMs sunsetMs p ctrl h, rfl⟩
  · rw [checkSunset_ok_triggered _ _ _ _ (by norm_num [diffMinutes])]
    norm_num [diffMinutes, listDevices, controlLoop]
  · rw [checkSunset_ok_triggered _ _ _ _ (by norm_num [diffMinutes])]
    norm_num [diffMinutes, listDevices, controlLoop]
  · rw [checkSunset_ok_notTriggered _ _ _ _ (by norm_num [diffMinutes])]
    norm_num [diffMinutes]
  · rw [checkSunset_ok_notTriggered _ _ _ _ (by norm_num [diffMinutes])]
    norm_num [diffMinutes]

/-- Claim C6: when the solar time source reports a non-success status, the
sunset path returns the structured error record to the caller and issues no
control request in that cycle. -/
theorem sunset_upstream_error (status : String) (hs : status ≠ "OK")
    (sunsetMs nowMs : Rat) (dir : Except String DirectoryPayload)
    (ctrl : Device → Except String Unit) :
    checkSunsetAndTurnOn (Except.ok ⟨status, sunsetMs⟩) nowMs dir ctrl =
      Except.ok { result := CheckResult.fetchError "Failed to fetch sunset"
                , solarQueries := 1, dirQueries := 0, controls := [] } := by
  simp [checkSunsetAndTurnOn, hs]

/-- Witness for `sunset_upstream_error` at a concrete non-success status. -/
theorem sunset_upstream_error_witness :
    checkSunsetAndTurnOn (Except.ok ⟨"ERROR", 0⟩) 0 (Except.ok rosterAB) ctrlOk =
      Except.ok { result := CheckResult.fetchError "Failed to fetch sunset"
                , solarQueries := 1, dirQueries := 0, controls := [] } :=
  sunset_upstream_error "ERROR" (by decide) 0 0 (Except.ok rosterAB) ctrlOk

/-- Claim C8: a directory payload without a device array yields the empty
roster rather than an error, and every caller treats the empty roster as a
valid state: the aggregator returns an empty device list, the fan-out
completes with no requests, and the scheduler's off-hour branch completes
cleanly. -/
theorem empty_roster_valid (fetchState : Device → Except String (List Capability))
    (ctrl : Device → Except String Unit) (ts : String) (turnOn : Bool)
    (sunsetRes : Except String SunsetData) (nowMs : Rat) :
    listDevices { data := none } = []
    ∧ getDeviceStatus (Except.ok { data := none }) fetchState ts = AggregateResult.ok [] ts
    ∧ controlAllLights (Except.ok { data := none }) ctrl turnOn =
        Except.ok { dirQueries := 1, attempts := [], logs := [], returnValue := none }
    ∧ scheduled 8 sunsetRes nowMs (Except.ok { data := none }) ctrl =
        Except.ok { solarQueries := 0, dirQueries := 1, controls := [] } := by
  refine ⟨rfl, rfl, rfl, ?_⟩
  simp [scheduled, controlAllLights, listDevices, controlLoop]

lemma controlLoop_fst (ctrl : Device → Except String Unit) (turnOn : Bool)
    (ds : List Device) :
    (controlLoop ctrl turnOn ds).1 = ds.map (controlRequest (if turnOn then 1 else 0)) := by
  induction ds with
  | nil => rfl
  | cons d rest ih => simp [controlLoop, ih]

lemma controlLoop_snd (ctrl : Device → Except String Unit) (turnOn : Bool)
    (ds : List Device) :
    (controlLoop ctrl turnOn ds).2 = ds.map (fun d =>
      match ctrl d with
      | Except.ok _ => DispatchOutcome.success d.deviceName
      | Except.error _ => DispatchOutcome.failure d.deviceName) := by
  induction ds with
  | nil => rfl
  | cons d rest ih => simp [controlLoop, ih]

/-- Claim C2: on a recurring tick, hour 8 unconditionally dispatches the
value-0 power-off request to every roster device with no solar query; an
hour in the evening window invokes the sunset check and dispatches the
value-1 power-on request to every roster device exactly when it triggers;
every other hour issues no request of any kind. -/
theorem scheduled_hour_dispatch (hour : Nat) (sunsetMs nowMs : Rat)
    (p : DirectoryPayload) (ctrl : Device → Except String Unit) :
    (hour = 8 →
      scheduled hour (Except.ok ⟨"OK", sunsetMs⟩) nowMs (Except.ok p) ctrl =
        Except.ok { solarQueries := 0, dirQueries := 1
                  , controls := (listDevices p).map (controlRequest 0) })
    ∧ ((hour = 22 ∨ hour = 23 ∨ hour = 0 ∨ hour = 1 ∨ hour = 2) →
      scheduled hour (Except.ok ⟨"OK", sunsetMs⟩) nowMs (Except.ok p) ctrl =
        (if -5 ≤ diffMinutes nowMs sunsetMs ∧ diffMinutes nowMs sunsetMs ≤ 20 then
          Except.ok { solarQueries := 1, dirQueries := 1
                    , controls := (listDevices p).map (controlRequest 1) }
        else
          Except.ok { solarQueries := 1, dirQueries := 0, controls := [] }))
    ∧ (hour < 24 → hour ≠ 8 → ¬(22 ≤ hour ∨ hour ≤ 2) →
      scheduled hour (Except.ok ⟨"OK", sunsetMs⟩) nowMs (Except.ok p) ctrl =
        Except.ok { solarQueries := 0, dirQueries := 0, controls := [] }) := by
  refine ⟨?_, ?_, ?_⟩
  · rintro rfl
    simp [scheduled, controlAllLights, controlLoop_fst]
  · intro hw
    have h8 : hour ≠ 8 := by rcases hw with h | h | h | h | h <;> omega
    have hev : 22 ≤ hour ∨ hour ≤ 2 := by rcases hw with h | h | h | h | h <;> omega
    by_cases hd : -5 ≤ diffMinutes nowMs sunsetMs ∧ diffMinutes nowMs sunsetMs ≤ 20
    · rw [if_pos hd]
      simp only [scheduled, if_neg h8, if_pos hev]
      rw [checkSunset_ok_triggered nowMs sunsetMs p ctrl hd]
      simp [controlLoop_fst]
    · rw [if_neg hd]
      simp only [scheduled, if_neg h8, if_pos hev]
      rw [checkSunset_ok_notTriggered nowMs sunsetMs _ ctrl hd]
  · intro _ h8 hev
    simp [scheduled, h8, hev]

/-- Witness for `scheduled_hour_dispatch` at hours 8, 23 and 15 with a
concrete two-device roster. -/
theorem scheduled_hour_dispatch_witness :
    scheduled 8 (Except.ok ⟨"OK", 0⟩) 0 (Except.ok rosterAB) ctrlOk =
      Except.ok { solarQueries := 0, dirQueries := 1
                , controls := [controlRequest 0 devA, controlRequest 0 devB] }
    ∧ scheduled 23 (Except.ok ⟨"OK", 0⟩) 0 (Except.ok rosterAB) ctrlOk =
      Except.ok { solarQueries := 1, dirQueries := 1
                , controls := [controlRequest 1 devA, controlRequest 1 devB] }
    ∧ scheduled 15 (Except.ok ⟨"OK", 0⟩) 0 (Except.ok rosterAB) ctrlOk =
      Except.ok { solarQueries := 0, dirQueries := 0, controls := [] } := by
  refine ⟨?_, ?_, ?_⟩
  · have h := (scheduled_hour_dispatch 8 0 0 rosterAB ctrlOk).1 rfl
    simpa [rosterAB, listDevices] using h
  · have h := (scheduled_hour_dispatch 23 0 0 rosterAB ctrlOk).2.1 (Or.inr (Or.inl rfl))
    rw [h, if_pos (by norm_num [diffMinutes])]
    simp [rosterAB, listDevices]
  · exact (scheduled_hour_dispatch 15 0 0 rosterAB ctrlOk).2.2 (by norm_num)
      (by norm_num) (by norm_num)

/-- Counterexample to claim C3: on a concrete two-device roster with one
failing device, the fan-out returns no per-device outcome sequence at all
(the source function returns undefined), so in particular it returns no
full-length outcome list. -/
theorem controlAllLights_no_outcome_list :
    ¬ returnsOutcomeList (controlAllLights (Except.ok rosterAB) ctrlFailA true) 2 := by
  rintro ⟨res, outs, hres, hret, hlen⟩
  have hc : controlAllLights (Except.ok rosterAB) ctrlFailA true =
      Except.ok { dirQueries := 1
                , attempts := [controlRequest 1 devA, controlRequest 1 devB]
                , logs := [DispatchOutcome.failure "Lamp A", DispatchOutcome.success "Lamp B"]
                , returnValue := none } := by rfl
  rw [hc] at hres
  cases hres
  simp at hret

/-- Claim C3 (amended): the fan-out attempts exactly one control request per
roster device in order, records each device's individual outcome (a device
whose request throws is recorded failed), and one device's failure does not
block or cancel the dispatches to the remaining devices; however no
per-device outcome sequence is returned to the caller (the source function
returns undefined), the outcomes being observable only in its logs. -/
theorem controlAllLights_fanout_isolation (p : DirectoryPayload)
    (ctrl : Device → Except String Unit) (turnOn : Bool) :
    ∃ res, controlAllLights (Except.ok p) ctrl turnOn = Except.ok res
      ∧ res.attempts = (listDevices p).map (controlRequest (if turnOn then 1 else 0))
      ∧ res.logs = (listDevices p).map (fun d =>
          match ctrl d with
          | Except.ok _ => DispatchOutcome.success d.deviceName
          | Except.error _ => DispatchOutcome.failure d.deviceName)
      ∧ res.returnValue = none :=
  ⟨_, rfl, controlLoop_fst ctrl turnOn (listDevices p),
    controlLoop_snd ctrl turnOn (listDevices p), rfl⟩

/-- Counterexample to claim C9: the control fan-out's loop awaits device A's
response before device B's request leaves, so on a two-device roster its
requests are not all in flight before a completion is awaited. -/
theorem controlAllLights_not_concurrent :
    allSendsBeforeAnyRecv (controlAllLightsEvents [devA, devB]) = false := by
  decide

lemma allSendsBeforeAnyRecv_split (l1 l2 : List Device) :
    allSendsBeforeAnyRecv
      (l1.map (fun d => Event.send d.device) ++ l2.map (fun d => Event.recv d.device)) = true := by
  induction l1 with
  | nil =>
    cases l2 with
    | nil => rfl
    | cons d rest => simp [allSendsBeforeAnyRecv, List.all_map, isRecvEvent]
  | cons d rest ih => simpa [allSendsBeforeAnyRecv] using ih

/-- Claim C9 (amended): the status aggregator issues its per-device state
requests concurrently (every request has been sent before any completion is
awaited), but the control fan-out does not: it runs a strict sequential
loop, so on any roster of at least two devices some request is sent only
after an earlier response has been awaited. -/
theorem fanout_request_ordering (devices : List Device) :
    allSendsBeforeAnyRecv (getDeviceStatusEvents devices) = true
    ∧ (2 ≤ devices.length →
        allSendsBeforeAnyRecv (controlAllLightsEvents devices) = false) := by
  constructor
  · exact allSendsBeforeAnyRecv_split devices devices
  · intro h2
    rcases devices with _ | ⟨d1, _ | ⟨d2, rest⟩⟩
    · simp at h2
    · simp at h2
    · simp [controlAllLightsEvents, allSendsBeforeAnyRecv, isRecvEvent]

/-- Witness for `fanout_request_ordering` on the concrete two-device roster. -/
theorem fanout_request_ordering_witness :
    allSendsBeforeAnyRecv (getDeviceStatusEvents [devB, devA]) = true
    ∧ allSendsBeforeAnyRecv (controlAllLightsEvents [devB, devA]) = false :=
  ⟨(fanout_request_ordering [devB, devA]).1,
   (fanout_request_ordering [devB, devA]).2 (by decide)⟩

lemma decode_power_def (d : Device) (caps : List Capability) :
    (decodeDeviceStatus d caps).power =
      if optChainValue (caps.find? (fun c => c.type == "devices.capabilities.on_off"))
           = JVal.num 1
      then "ON" else "OFF" := rfl

lemma decode_color_def (d : Device) (caps : List Capability) :
    (decodeDeviceStatus d caps).color =
      if optChainValue (caps.find? (fun c => c.inst == "colorRgb")) = JVal.null
         ∨ optChainValue (caps.find? (fun c => c.inst == "colorRgb")) = JVal.undefined
      then none
      else some
        { r := jsAnd (jsShr (jsToInt32 (optChainValue
                 (caps.find? (fun c => c.inst == "colorRgb")))) 16) 255
        , g := jsAnd (jsShr (jsToInt32 (optChainValue
                 (caps.find? (fun c => c.inst == "colorRgb")))) 8) 255
        , b := jsAnd (jsToInt32 (optChainValue
                 (caps.find? (fun c => c.inst == "colorRgb")))) 255 } := rfl

lemma decode_scene_def (d : Device) (caps : List Capability) :
    (decodeDeviceStatus d caps).scene =
      if jsTruthy (optChainValue (caps.find? (fun c => c.inst == "lightScene")))
      then optChainValue (caps.find? (fun c => c.inst == "lightScene"))
      else JVal.null := rfl

/-- Claim C5: the decoded power field is ON exactly when the power-switch
capability is present and its reported value is literally the number 1; a
capability set without a power capability decodes to OFF, as does a present
capability whose value is anything other than the literal 1. -/
theorem power_strict_equality (d : Device) (caps : List Capability) :
    ((decodeDeviceStatus d caps).power = "ON" ↔
      ∃ c, caps.find? (fun c => c.type == "devices.capabilities.on_off") = some c
        ∧ optChainValue (some c) = JVal.num 1)
    ∧ (caps.find? (fun c => c.type == "devices.capabilities.on_off") = none →
        (decodeDeviceStatus d caps).power = "OFF") := by
  constructor
  · rw [decode_power_def]
    by_cases h : optChainValue
        (caps.find? (fun c => c.type == "devices.capabilities.on_off")) = JVal.num 1
    · rw [if_pos h]
      refine iff_of_true rfl ?_
      cases hP : caps.find? (fun c => c.type == "devices.capabilities.on_off") with
      | none => rw [hP] at h; simp [optChainValue] at h
      | some c => exact ⟨c, rfl, by rw [hP] at h; exact h⟩
    · rw [if_neg h]
      refine iff_of_false (by simp) ?_
      rintro ⟨c, hc, hv⟩
      rw [hc] at h
      exact h hv
  · intro hnone
    rw [decode_power_def, hnone]
    simp [optChainValue]

/-- Witness for `power_strict_equality`: no power capability decodes to OFF,
and the concrete power-1 capability set decodes to ON. -/
theorem power_strict_equality_witness :
    (decodeDeviceStatus devA []).power = "OFF"
    ∧ (decodeDeviceStatus devB capsB).power = "ON" :=
  ⟨(power_strict_equality devA []).2 rfl,
   (power_strict_equality devB capsB).1.mpr
     ⟨{ type := "devices.capabilities.on_off", inst := "powerSwitch"
      , state := some { value := JVal.num 1 } }, rfl, rfl⟩⟩

/-- Claim C7: with a listable directory the aggregator returns one entry per
roster device even when some state queries fail: a failing device's entry is
the error record (name, sku, error message, no decoded status fields), a
succeeding device's entry is its decoded status, and the aggregation as a
whole succeeds; a directory-level failure instead yields the single
top-level error result.  Concretely, with device A's query failing and
device B reporting power 1 and brightness 80, the result has exactly the
error entry for A and the decoded power-ON brightness-80 entry for B. -/
theorem aggregate_partial_failure (payload : DirectoryPayload)
    (fetchState : Device → Except String (List Capability)) (ts e : String) :
    getDeviceStatus (Except.ok payload) fetchState ts =
      AggregateResult.ok ((listDevices payload).map (fun device =>
        match fetchState device with
        | Except.ok caps => DeviceEntry.ok (decodeDeviceStatus device caps)
        | Except.error msg => DeviceEntry.err device.deviceName device.sku msg)) ts
    ∧ getDeviceStatus (Except.error e) fetchState ts = AggregateResult.err e ts
    ∧ getDeviceStatus (Except.ok rosterAB) fetchFailA ts =
        AggregateResult.ok
          [ DeviceEntry.err "Lamp A" "H6159" "timeout"
          , DeviceEntry.ok { name := "Lamp B", sku := "H6159", power := "ON"
                           , brightness := JVal.num 80, color := none
                           , scene := JVal.null } ] ts :=
  ⟨rfl, rfl, rfl⟩

/-- Color capability fixture carrying a null value. -/
def ccNull : Capability :=
  { type := "devices.capabilities.color_setting", inst := "colorRgb"
  , state := some { value := JVal.null } }

/-- Color capability fixture carrying an undefined value. -/
def ccUndef : Capability :=
  { type := "devices.capabilities.color_setting", inst := "colorRgb"
  , state := some { value := JVal.undefined } }

/-- Color capability fixture carrying the packed value 0. -/
def ccZero : Capability :=
  { type := "devices.capabilities.color_setting", inst := "colorRgb"
  , state := some { value := JVal.num 0 } }

/-- Scene capability fixture carrying the falsy value 0. -/
def csZero : Capability :=
  { type := "devices.capabilities.dynamic_scene", inst := "lightScene"
  , state := some { value := JVal.num 0 } }

/-- Claim C10: a present color capability whose reported value is null or
undefined decodes to an absent color; a reported value of 0 is not treated
as absent and decodes to the channels (0, 0, 0); by contrast a falsy scene
value such as 0 decodes to an absent scene. -/
theorem color_nullish_vs_zero (d : Device) (caps : List Capability) (c : Capability) :
    (caps.find? (fun c => c.inst == "colorRgb") = some c →
      c.state = some { value := JVal.null } →
      (decodeDeviceStatus d caps).color = none)
    ∧ (caps.find? (fun c => c.inst == "colorRgb") = some c →
      c.state = some { value := JVal.undefined } →
      (decodeDeviceStatus d caps).color = none)
    ∧ (caps.find? (fun c => c.inst == "colorRgb") = some c →
      c.state = some { value := JVal.num 0 } →
      (decodeDeviceStatus d caps).color = some { r := 0, g := 0, b := 0 })
    ∧ (caps.find? (fun c => c.inst == "lightScene") = some c →
      c.state = some { value := JVal.num 0 } →
      (decodeDeviceStatus d caps).scene = JVal.null) := by
  refine ⟨?_, ?_, ?_, ?_⟩
  · intro hfind hstate
    rw [decode_color_def, hfind]
    simp [optChainValue, hstate]
  · intro hfind hstate
    rw [decode_color_def, hfind]
    simp [optChainValue, hstate]
  · intro hfind hstate
    rw [decode_color_def, hfind]
    simp only [optChainValue, hstate]
    decide
  · intro hfind hstate
    rw [decode_scene_def, hfind]
    simp [optChainValue, hstate, jsTruthy]

/-- Witness for `color_nullish_vs_zero` on concrete capability lists. -/
theorem color_nullish_vs_zero_witness :
    (decodeDeviceStatus devA [ccNull]).color = none
    ∧ (decodeDeviceStatus devA [ccUndef]).color = none
    ∧ (decodeDeviceStatus devA [ccZero]).color = some { r := 0, g := 0, b := 0 }
    ∧ (decodeDeviceStatus devA [csZero]).scene = JVal.null :=
  ⟨(color_nullish_vs_zero devA [ccNull] ccNull).1 rfl rfl,
   (color_nullish_vs_zero devA [ccUndef] ccUndef).2.1 rfl rfl,
   (color_nullish_vs_zero devA [ccZero] ccZero).2.2.1 rfl rfl,
   (color_nullish_vs_zero devA [csZero] csZero).2.2.2 rfl rfl⟩

lemma toUint32_natCast (a : Nat) (h : a < 2 ^ 32) : toUint32 (a : Int) = a := by
  unfold toUint32
  rw [Int.emod_eq_of_lt (by positivity) (by exact_mod_cast h)]
  exact Int.toNat_ofNat a

lemma ofUint32_small (m : Nat) (h : m < 2 ^ 31) : ofUint32 m = (m : Int) := by
  unfold ofUint32
  rw [if_pos h]

lemma asInt32_natCast (a : Nat) (h : a < 2 ^ 31) : asInt32 (a : Int) = (a : Int) := by
  unfold asInt32
  rw [toUint32_natCast a (by omega), ofUint32_small a h]

lemma jsShr_natCast (a k : Nat) (h : a < 2 ^ 31) :
    jsShr (a : Int) k = ((a >>> k : Nat) : Int) := by
  unfold jsShr
  rw [asInt32_natCast a h, Nat.shiftRight_eq_div_pow]
  norm_cast

lemma jsAnd_natCast (a b : Nat) (ha : a < 2 ^ 31) (hb : b < 2 ^ 31) :
    jsAnd (a : Int) (b : Int) = ((a &&& b : Nat) : Int) := by
  unfold jsAnd
  rw [toUint32_natCast a (by omega), toUint32_natCast b (by omega)]
  exact ofUint32_small _ (lt_of_le_of_lt Nat.and_le_left ha)

lemma jsOr_natCast (a b : Nat) (ha : a < 2 ^ 31) (hb : b < 2 ^ 31) :
    jsOr (a : Int) (b : Int) = ((a ||| b : Nat) : Int) := by
  unfold jsOr
  rw [toUint32_natCast a (by omega), toUint32_natCast b (by omega)]
  exact ofUint32_small _ (Nat.or_lt_two_pow ha hb)

lemma jsShl_natCast (a k : Nat) (h : a <<< k < 2 ^ 31) :
    jsShl (a : Int) k = ((a <<< k : Nat) : Int) := by
  have haa : a ≤ a <<< k := by
    rw [Nat.shiftLeft_eq]
    exact Nat.le_mul_of_pos_right a (pow_pos (by norm_num) k)
  have h32 : a <<< k < 2 ^ 32 := lt_of_lt_of_le h (by norm_num)
  unfold jsShl
  rw [toUint32_natCast a (lt_of_le_of_lt haa h32)]
  rw [Nat.mod_eq_of_lt h32]
  exact ofUint32_small _ h

lemma shiftRight_lt_31 (v k : Nat) (h : v < 2 ^ 24) : v >>> k < 2 ^ 31 := by
  rw [Nat.shiftRight_eq_div_pow]
  exact lt_of_le_of_lt (Nat.div_le_self _ _) (by omega)

lemma pack_unpack_nat (v : Nat) (hv : v < 2 ^ 24) :
    ((v >>> 16 &&& 255) <<< 16 ||| (v >>> 8 &&& 255) <<< 8) ||| (v &&& 255) = v := by
  apply Nat.eq_of_testBit_eq
  intro i
  simp only [show (255 : Nat) = 2 ^ 8 - 1 from rfl, Nat.testBit_lor, Nat.testBit_shiftLeft,
    Nat.testBit_land, Nat.testBit_shiftRight, Nat.testBit_two_pow_sub_one]
  rcases Nat.lt_or_ge i 8 with h1 | h1
  · have e16 : ¬ (i ≥ 16) := by omega
    have e8 : ¬ (i ≥ 8) := by omega
    simp [e16, e8, h1]
  · rcases Nat.lt_or_ge i 16 with h2 | h2
    · have e16 : ¬ (i ≥ 16) := by omega
      have elt : i - 8 < 8 := by omega
      have hc : ¬ (i < 8) := by omega
      rw [show 8 + (i - 8) = i by omega]
      simp [e16, h1, elt, hc]
    · rcases Nat.lt_or_ge i 24 with h3 | h3
      · have elt : i - 16 < 8 := by omega
        have hb : ¬ (i - 8 < 8) := by omega
        have hc : ¬ (i < 8) := by omega
        rw [show 16 + (i - 16) = i by omega]
        simp [h2, elt, hb, hc]
      · have hbit : v.testBit i = false :=
          Nat.testBit_lt_two_pow
            (lt_of_lt_of_le hv (Nat.pow_le_pow_right (by norm_num) h3))
        have ha : ¬ (i - 16 < 8) := by omega
        have hb : ¬ (i - 8 < 8) := by omega
        have hc : ¬ (i < 8) := by omega
        simp [ha, hb, hc, hbit]

/-- Claim C4: for every packed color integer v in [0, FFFFFF] reported by
the colorRgb capability, the decoder recovers the channels
((v >> 16) & 255, (v >> 8) & 255, v & 255), repacking those channels with
the spec's expression r<<16 | g<<8 | b reproduces v, and an absent color
capability yields an absent color field. -/
theorem color_roundtrip (v : Nat) (hv : v ≤ 0xFFFFFF) (d : Device)
    (caps : List Capability) (c : Capability)
    (hfind : caps.find? (fun c => c.inst == "colorRgb") = some c)
    (hstate : c.state = some { value := JVal.num (v : Int) }) :
    (decodeDeviceStatus d caps).color =
      some { r := ((v >>> 16 &&& 255 : Nat) : Int)
           , g := ((v >>> 8 &&& 255 : Nat) : Int)
           , b := ((v &&& 255 : Nat) : Int) }
    ∧ packRGB { r := ((v >>> 16 &&& 255 : Nat) : Int)
              , g := ((v >>> 8 &&& 255 : Nat) : Int)
              , b := ((v &&& 255 : Nat) : Int) } = (v : Int)
    ∧ (∀ d2 caps2, caps2.find? (fun c => c.inst == "colorRgb") = none →
        (decodeDeviceStatus d2 caps2).color = none) := by
  have hv24 : v < 2 ^ 24 := by omega
  have h31 : v < 2 ^ 31 := by omega
  refine ⟨?_, ?_, ?_⟩
  · rw [decode_color_def, hfind]
    simp only [optChainValue, hstate]
    rw [if_neg (by simp)]
    have hval : jsToInt32 (JVal.num (v : Int)) = (v : Int) := by
      simp only [jsToInt32]
      exact asInt32_natCast v h31
    rw [hval, jsShr_natCast v 16 h31, jsShr_natCast v 8 h31,
      show (255 : Int) = ((255 : Nat) : Int) from rfl,
      jsAnd_natCast _ _ (shiftRight_lt_31 v 16 hv24) (by norm_num),
      jsAnd_natCast _ _ (shiftRight_lt_31 v 8 hv24) (by norm_num),
      jsAnd_natCast _ _ h31 (by norm_num)]
  · have hr : (v >>> 16 &&& 255) ≤ 255 := Nat.and_le_right
    have hg : (v >>> 8 &&& 255) ≤ 255 := Nat.and_le_right
    have hb : (v &&& 255) ≤ 255 := Nat.and_le_right
    have hrs : (v >>> 16 &&& 255) <<< 16 < 2 ^ 31 := by
      rw [Nat.shiftLeft_eq]; omega
    have hgs : (v >>> 8 &&& 255) <<< 8 < 2 ^ 31 := by
      rw [Nat.shiftLeft_eq]; omega
    unfold packRGB
    rw [jsShl_natCast _ 16 hrs, jsShl_natCast _ 8 hgs,
      jsOr_natCast _ _ hrs hgs,
      show (((v &&& 255 : Nat) : Int)) = (((v &&& 255 : Nat) : Nat) : Int) from rfl,
      jsOr_natCast _ _ (Nat.or_lt_two_pow hrs hgs) (by omega)]
    exact congrArg (fun n : Nat => (n : Int)) (pack_unpack_nat v hv24)
  · intro d2 caps2 hnone
    rw [decode_color_def, hnone]
    simp [optChainValue]

/-- Color capability fixture carrying the packed value ABCDEF hex. -/
def ccPacked : Capability :=
  { type := "devices.capabilities.color_setting", inst := "colorRgb"
  , state := some { value := JVal.num 11259375 } }

/-- Witness for `color_roundtrip` at the concrete packed value ABCDEF hex,
whose channels are (171, 205, 239). -/
theorem color_roundtrip_witness :
    (decodeDeviceStatus devA [ccPacked]).color = some { r := 171, g := 205, b := 239 }
    ∧ packRGB { r := 171, g := 205, b := 239 } = 11259375
    ∧ (decodeDeviceStatus devA []).color = none := by
  have h := color_roundtrip 11259375 (by norm_num) devA [ccPacked] ccPacked rfl rfl
  have er : ((11259375 : Nat) >>> 16 &&& 255) = 171 := by decide
  have eg : ((11259375 : Nat) >>> 8 &&& 255) = 205 := by decide
  have eb : ((11259375 : Nat) &&& 255) = 239 := by decide
  refine ⟨?_, ?_, h.2.2 devA [] rfl⟩
  · have h1 := h.1
    rw [er, eg, eb] at h1
    simpa using h1
  · have h2 := h.2.1
    rw [er, eg, eb] at h2
    simpa using h2
